import Mathlib

/-!
# Theme switcher (`app/static/js/theme-switcher.js`)

A shallow embedding of the page script that toggles a light/dark theme.
The ambient browser state the script reads and writes is made explicit as a
`Page` record, and every function of the script becomes a function on `Page`.

Modelling conventions:

* `localStorage` is an association list of string keys and string values;
  `getItem` returns `none` for JavaScript `null`.
* `document.body.classList` is the ordered list of class tokens.
* Elements that can be reached with `document.getElementById` are listed in
  tree order, split into the children of `<head>` and the rest of the document.
  Only the properties the script touches (`id`, `rel`, `href`) are kept.
* The closure variable `themeToggle` (the element with id `theme-toggle`, or
  `null`) is the field `themeToggle`; only `innerHTML` and the `title`
  attribute of that element are kept.
* Calls of `fetch` and of `console.log` / `console.error` are recorded in
  the order in which they happen.
-/

namespace ThemeSwitcher

/-- The JavaScript values that can reach a header of the request. -/
inductive JsVal where
  | undefined : JsVal
  | null : JsVal
  | str : String → JsVal
  deriving DecidableEq, Repr

/-- An element of the document, with the properties the script reads or writes. -/
structure Element where
  localName : String
  id : String
  rel : String
  href : String
  deriving DecidableEq, Repr

/-- The toggle control: its markup and its `title` attribute. -/
structure Toggle where
  innerHTML : String
  title : Option String
  deriving DecidableEq, Repr

/-- The arguments of one call of `fetch`. -/
structure FetchCall where
  url : String
  method : String
  headers : List (String × JsVal)
  body : String
  deriving DecidableEq, Repr

/-- One line of diagnostic output. -/
inductive LogEntry where
  | log : String → String → LogEntry
  | error : String → String → LogEntry
  deriving DecidableEq, Repr

/-- The browser state the script works on. -/
structure Page where
  localStorage : List (String × String)
  bodyClassList : List String
  themeToggle : Option Toggle
  head : List Element
  bodyElements : List Element
  csrfMeta : Option (Option String)
  fetchCalls : List FetchCall
  console : List LogEntry
  deriving DecidableEq, Repr

/-! ## Browser primitives -/

/-- The method `Storage.getItem`: the value of the first entry with the key, `none` for `null`. -/
def getItem (key : String) : List (String × String) → Option String
  | [] => none
  | (k, v) :: rest => if k = key then some v else getItem key rest

/-- The method `Storage.setItem`: overwrite the entry with the key, or add one at the end. -/
def setItem (key value : String) : List (String × String) → List (String × String)
  | [] => [(key, value)]
  | (k, v) :: rest => if k = key then (k, value) :: rest else (k, v) :: setItem key value rest

/-- The method `DOMTokenList.add`: append the token unless it is present. -/
def classListAdd (tokens : List String) (token : String) : List String :=
  if token ∈ tokens then tokens else tokens ++ [token]

/-- The method `DOMTokenList.remove`: drop the token. -/
def classListRemove (tokens : List String) (token : String) : List String :=
  tokens.filter fun t => decide (t ≠ token)

/-- The first element of a list, in tree order, with the given id. -/
def findById (id : String) : List Element → Option Element
  | [] => none
  | e :: rest => if e.id = id then some e else findById id rest

/-- Assign `href` on the first element with the given id. -/
def setHrefById (id href : String) : List Element → List Element
  | [] => []
  | e :: rest =>
    if e.id = id then { e with href := href } :: rest else e :: setHrefById id href rest

/-- The method `document.getElementById`: the head comes first in tree order. -/
def getElementById (id : String) (s : Page) : Option Element :=
  match findById id s.head with
  | some e => some e
  | none => findById id s.bodyElements

/-- JavaScript `a || b` for a value that is `null` or a string: `null` and the
empty string are falsy. -/
def orDefault (a : Option String) (b : String) : String :=
  match a with
  | none => b
  | some v => if v = "" then b else v

/-- A hexadecimal digit, lower case. -/
def hexDigit (n : Nat) : Char :=
  if n < 10 then Char.ofNat (48 + n) else Char.ofNat (87 + n)

/-- The escape of one character inside a JSON string (`QuoteJSONString`). -/
def quoteJSONChar (c : Char) : String :=
  if c.toNat = 8 then "\\b"
  else if c.toNat = 9 then "\\t"
  else if c.toNat = 10 then "\\n"
  else if c.toNat = 12 then "\\f"
  else if c.toNat = 13 then "\\r"
  else if c.toNat = 34 then "\\\""
  else if c.toNat = 92 then "\\\\"
  else if c.toNat < 32 then
    String.mk [Char.ofNat 92, Char.ofNat 117, Char.ofNat 48, Char.ofNat 48,
      hexDigit (c.toNat / 16), hexDigit (c.toNat % 16)]
  else String.singleton c

/-- The result of `JSON.stringify` on a string. -/
def quoteJSONString (v : String) : String :=
  "\"" ++ String.join (v.toList.map quoteJSONChar) ++ "\""

/-- The result of `JSON.stringify` on the object with the one property `theme`. -/
def stringifyThemeObject (theme : String) : String :=
  "\x7b\"theme\":" ++ quoteJSONString theme ++ "\x7d"

/-! ## The script -/

/-- The markup of the sun icon. -/
def sunIcon : String := "<i class=\"bi bi-sun-fill\"></i>"

/-- The markup of the moon icon. -/
def moonIcon : String := "<i class=\"bi bi-moon-fill\"></i>"

/-- The template literal for the stylesheet path of a theme. -/
def themeCssPath (theme : String) : String :=
  "/static/css/" ++ theme ++ ".css"

/-- The element made by `document.createElement('link')` once its `id`, `rel`
and `href` have been assigned. -/
def newThemeLink (theme : String) : Element :=
  { localName := "link", id := "theme-css", rel := "stylesheet", href := themeCssPath theme }

/-- The first half of `applyTheme`: body marker and toggle control. -/
def applyMarker (theme : String) (s : Page) : Page :=
  if theme = "dark" then
    { s with
      bodyClassList := classListRemove (classListAdd s.bodyClassList "dark-theme") "light-theme"
      themeToggle := s.themeToggle.map fun _ =>
        { innerHTML := sunIcon, title := some "Switch to Light Mode" } }
  else
    { s with
      bodyClassList := classListRemove (classListAdd s.bodyClassList "light-theme") "dark-theme"
      themeToggle := s.themeToggle.map fun _ =>
        { innerHTML := moonIcon, title := some "Switch to Dark Mode" } }

/-- The second half of `applyTheme`: find or create the stylesheet link, then
assign its `href`. -/
def applyLink (theme : String) (s : Page) : Page :=
  match findById "theme-css" s.head with
  | some _ => { s with head := setHrefById "theme-css" (themeCssPath theme) s.head }
  | none =>
    match findById "theme-css" s.bodyElements with
    | some _ =>
      { s with bodyElements := setHrefById "theme-css" (themeCssPath theme) s.bodyElements }
    | none => { s with head := s.head ++ [newThemeLink theme] }

/-- The function `applyTheme(theme)`. -/
def applyTheme (theme : String) (s : Page) : Page :=
  let s1 := applyMarker theme s
  let s2 := applyLink theme s1
  { s2 with localStorage := setItem "theme" theme s2.localStorage }

/-- The function `getCsrfToken()`: `undefined` without a meta element, `null`
when it has no `content` attribute. -/
def getCsrfToken (s : Page) : JsVal :=
  match s.csrfMeta with
  | none => JsVal.undefined
  | some none => JsVal.null
  | some (some c) => JsVal.str c

/-- The function `updateUserThemePreference(theme)`, up to the call of `fetch`. -/
def updateUserThemePreference (theme : String) (s : Page) : Page :=
  { s with
    fetchCalls := s.fetchCalls ++
      [{ url := "/auth/update_theme"
         method := "POST"
         headers := [("Content-Type", JsVal.str "application/json"),
                     ("X-CSRFToken", getCsrfToken s)]
         body := stringifyThemeObject theme }] }

/-- The theme the click handler computes: `newTheme`. -/
def newTheme (s : Page) : String :=
  let currentTheme := orDefault (getItem "theme" s.localStorage) "light"
  if currentTheme = "light" then "dark" else "light"

/-- The body of the click handler of the toggle control. -/
def themeToggleClick (s : Page) : Page :=
  let t := newTheme s
  updateUserThemePreference t (applyTheme t s)

/-- The part of the `DOMContentLoaded` handler that changes the page. -/
def domContentLoaded (s : Page) : Page :=
  let currentTheme := orDefault (getItem "theme" s.localStorage) "light"
  applyTheme currentTheme s

/-- How a request of `updateUserThemePreference` ends. -/
inductive Outcome where
  | fulfilled : String → Outcome
  | networkError : String → Outcome
  | parseError : String → Outcome
  deriving DecidableEq, Repr

/-- The completion handlers chained on the promise of `fetch`. -/
def settle (o : Outcome) (s : Page) : Page :=
  match o with
  | Outcome.fulfilled data =>
    { s with console := s.console ++ [LogEntry.log "Theme preference updated:" data] }
  | Outcome.networkError e =>
    { s with console := s.console ++ [LogEntry.error "Error updating theme preference:" e] }
  | Outcome.parseError e =>
    { s with console := s.console ++ [LogEntry.error "Error updating theme preference:" e] }

/-- What happens on the page after it has loaded. -/
inductive Event where
  | click : Event
  | settled : Outcome → Event
  deriving DecidableEq, Repr

/-- One event. The click handler is bound only when the control exists. -/
def step (s : Page) (e : Event) : Page :=
  match e with
  | Event.click =>
    match s.themeToggle with
    | some _ => themeToggleClick s
    | none => s
  | Event.settled o => settle o s

/-- A sequence of events, oldest first. -/
def run (events : List Event) (s : Page) : Page :=
  events.foldl step s

/-! ## Observations -/

/-- The theme-related state that is local to the page. -/
structure LocalState where
  localStorage : List (String × String)
  bodyClassList : List String
  themeToggle : Option Toggle
  head : List Element
  bodyElements : List Element
  deriving DecidableEq, Repr

/-- The local theme state of a page. -/
def localState (s : Page) : LocalState :=
  { localStorage := s.localStorage
    bodyClassList := s.bodyClassList
    themeToggle := s.themeToggle
    head := s.head
    bodyElements := s.bodyElements }

/-- The stored preference. -/
def storedTheme (s : Page) : Option String :=
  getItem "theme" s.localStorage

/-- The `href` of the element `document.getElementById('theme-css')`. -/
def themeLinkHref (s : Page) : Option String :=
  (getElementById "theme-css" s).map fun e => e.href

/-- The body carries the marker of `theme` and not the other one. -/
def HasMarker (theme : String) (s : Page) : Prop :=
  if theme = "dark" then
    "dark-theme" ∈ s.bodyClassList ∧ "light-theme" ∉ s.bodyClassList
  else
    "light-theme" ∈ s.bodyClassList ∧ "dark-theme" ∉ s.bodyClassList

instance (theme : String) (s : Page) : Decidable (HasMarker theme s) := by
  unfold HasMarker; infer_instance

/-- How many elements of the document have the given id. -/
def countById (id : String) (s : Page) : Nat :=
  (s.head ++ s.bodyElements).countP fun e => decide (e.id = id)

/-- A page with nothing stored, no classes, a toggle control and no link. -/
def freshPage : Page :=
  { localStorage := []
    bodyClassList := []
    themeToggle := some { innerHTML := "", title := none }
    head := []
    bodyElements := []
    csrfMeta := some (some "tok")
    fetchCalls := []
    console := [] }

/-- A page that stores `dark` and is rendered dark. -/
def darkPage : Page :=
  { localStorage := [("lang", "en"), ("theme", "dark")]
    bodyClassList := ["container", "dark-theme"]
    themeToggle := some { innerHTML := sunIcon, title := some "Switch to Light Mode" }
    head := [{ localName := "link", id := "theme-css", rel := "stylesheet",
               href := "/static/css/dark.css" }]
    bodyElements := []
    csrfMeta := some (some "tok")
    fetchCalls := []
    console := [] }

/-- A page rendered light whose storage was set to `dark` from outside. -/
def stalePage : Page :=
  { localStorage := [("theme", "dark")]
    bodyClassList := ["light-theme"]
    themeToggle := some { innerHTML := moonIcon, title := some "Switch to Dark Mode" }
    head := [{ localName := "link", id := "theme-css", rel := "stylesheet",
               href := "/static/css/light.css" }]
    bodyElements := []
    csrfMeta := none
    fetchCalls := []
    console := [] }

/-- A page whose storage holds a value outside the two themes. -/
def bluePage : Page :=
  { localStorage := [("theme", "blue")]
    bodyClassList := ["dark-theme"]
    themeToggle := none
    head := []
    bodyElements := []
    csrfMeta := none
    fetchCalls := []
    console := [] }

/-- A page with nothing stored that is rendered dark. -/
def unstoredDarkPage : Page :=
  { localStorage := [("lang", "en")]
    bodyClassList := ["dark-theme"]
    themeToggle := some { innerHTML := sunIcon, title := some "Switch to Light Mode" }
    head := [{ localName := "link", id := "theme-css", rel := "stylesheet",
               href := "/static/css/dark.css" }]
    bodyElements := []
    csrfMeta := some (some "tok")
    fetchCalls := []
    console := [] }

/-- A page with nothing stored that is rendered light. -/
def unstoredLightPage : Page :=
  { localStorage := []
    bodyClassList := ["light-theme"]
    themeToggle := some { innerHTML := moonIcon, title := some "Switch to Dark Mode" }
    head := []
    bodyElements := []
    csrfMeta := some (some "tok")
    fetchCalls := []
    console := [] }

/-- A page with a toggle control whose storage holds a value outside the two
themes. -/
def blueControlPage : Page :=
  { localStorage := [("theme", "blue")]
    bodyClassList := []
    themeToggle := some { innerHTML := "", title := none }
    head := []
    bodyElements := []
    csrfMeta := some (some "tok")
    fetchCalls := []
    console := [] }

/-- Calls of `applyTheme` in a row, oldest first. -/
def applyThemes (themes : List String) (s : Page) : Page :=
  themes.foldl (fun p theme => applyTheme theme p) s

/-- Two pages agree on the local theme state, the body classes taken as a set. -/
def SameTheme (s p : Page) : Prop :=
  s.localStorage = p.localStorage ∧ s.head = p.head ∧ s.bodyElements = p.bodyElements ∧
    s.themeToggle = p.themeToggle ∧
    s.bodyClassList ⊆ p.bodyClassList ∧ p.bodyClassList ⊆ s.bodyClassList

/-! ## Lemmas on the browser primitives -/

theorem getItem_setItem (key value : String) (l : List (String × String)) :
    getItem key (setItem key value l) = some value := by
  induction l with
  | nil => simp [setItem, getItem]
  | cons kv rest ih =>
    obtain ⟨k, v⟩ := kv
    by_cases h : k = key
    · simp [setItem, getItem, h]
    · simp [setItem, getItem, h, ih]

theorem setItem_setItem (key v w : String) (l : List (String × String)) :
    setItem key w (setItem key v l) = setItem key w l := by
  induction l with
  | nil => simp [setItem]
  | cons kv rest ih =>
    obtain ⟨k, u⟩ := kv
    by_cases h : k = key
    · simp [setItem, h]
    · simp [setItem, h, ih]

theorem setItem_of_getItem (key v : String) (l : List (String × String))
    (h : getItem key l = some v) : setItem key v l = l := by
  induction l with
  | nil => simp [getItem] at h
  | cons kv rest ih =>
    obtain ⟨k, u⟩ := kv
    by_cases hk : k = key
    · simp [getItem, hk] at h
      simp [setItem, hk, h]
    · simp [getItem, hk] at h
      simp [setItem, hk, ih h]

theorem mem_classListAdd (l : List String) (t c : String) :
    c ∈ classListAdd l t ↔ c ∈ l ∨ c = t := by
  unfold classListAdd
  split_ifs with h
  · constructor
    · intro hc; exact Or.inl hc
    · rintro (hc | rfl)
      · exact hc
      · exact h
  · simp

theorem mem_classListRemove (l : List String) (t c : String) :
    c ∈ classListRemove l t ↔ c ∈ l ∧ c ≠ t := by
  simp [classListRemove]

theorem classListAdd_of_mem (l : List String) (t : String) (h : t ∈ l) :
    classListAdd l t = l := by
  simp [classListAdd, h]

theorem classListRemove_of_not_mem (l : List String) (t : String) (h : t ∉ l) :
    classListRemove l t = l := by
  unfold classListRemove
  rw [List.filter_eq_self]
  intro a ha
  have : a ≠ t := fun e => h (e ▸ ha)
  simp [this]

theorem findById_setHrefById (id href : String) (l : List Element) :
    findById id (setHrefById id href l) =
      (findById id l).map fun e => { e with href := href } := by
  induction l with
  | nil => simp [setHrefById, findById]
  | cons e rest ih =>
    by_cases h : e.id = id
    · simp [setHrefById, findById, h]
    · simp [setHrefById, findById, h, ih]

theorem setHrefById_setHrefById (id h1 h2 : String) (l : List Element) :
    setHrefById id h2 (setHrefById id h1 l) = setHrefById id h2 l := by
  induction l with
  | nil => simp [setHrefById]
  | cons e rest ih =>
    by_cases h : e.id = id
    · simp [setHrefById, h]
    · simp [setHrefById, h, ih]

theorem setHrefById_of_findById (id href : String) (l : List Element) (e : Element)
    (h : findById id l = some e) (he : e.href = href) : setHrefById id href l = l := by
  induction l with
  | nil => simp [findById] at h
  | cons a rest ih =>
    by_cases ha : a.id = id
    · simp [findById, ha] at h
      subst h
      subst he
      subst ha
      simp [setHrefById]
    · simp [findById, ha] at h
      simp [setHrefById, ha, ih h]

theorem setHrefById_of_findById_none (id href : String) (l : List Element)
    (h : findById id l = none) : setHrefById id href l = l := by
  induction l with
  | nil => simp [setHrefById]
  | cons a rest ih =>
    by_cases ha : a.id = id
    · simp [findById, ha] at h
    · simp [findById, ha] at h
      simp [setHrefById, ha, ih h]

theorem findById_append (id : String) (l m : List Element) :
    findById id (l ++ m) = (findById id l).orElse fun _ => findById id m := by
  induction l with
  | nil => simp [findById]
  | cons a rest ih =>
    by_cases ha : a.id = id
    · simp [findById, ha]
    · simp [findById, ha, ih]

theorem countP_setHrefById (id href : String) (l : List Element) :
    (setHrefById id href l).countP (fun e => decide (e.id = id)) =
      l.countP fun e => decide (e.id = id) := by
  induction l with
  | nil => simp [setHrefById]
  | cons a rest ih =>
    by_cases ha : a.id = id
    · simp [setHrefById, ha, List.countP_cons]
    · simp [setHrefById, ha, List.countP_cons, ih]

theorem findById_eq_none_iff (id : String) (l : List Element) :
    findById id l = none ↔ l.countP (fun e => decide (e.id = id)) = 0 := by
  induction l with
  | nil => simp [findById]
  | cons a rest ih =>
    by_cases ha : a.id = id
    · simp [findById, ha, List.countP_cons]
    · simp [findById, ha, List.countP_cons, ih]

/-! ## Lemmas on `applyTheme` -/

theorem applyTheme_localStorage (theme : String) (s : Page) :
    (applyTheme theme s).localStorage = setItem "theme" theme s.localStorage := by
  unfold applyTheme applyLink applyMarker
  split_ifs <;> (dsimp only; split <;> [rfl; (split <;> rfl)])

theorem applyTheme_bodyClassList (theme : String) (s : Page) :
    (applyTheme theme s).bodyClassList = (applyMarker theme s).bodyClassList := by
  unfold applyTheme applyLink
  dsimp only
  split <;> [rfl; (split <;> rfl)]

theorem applyTheme_themeToggle (theme : String) (s : Page) :
    (applyTheme theme s).themeToggle = (applyMarker theme s).themeToggle := by
  unfold applyTheme applyLink
  dsimp only
  split <;> [rfl; (split <;> rfl)]

theorem applyMarker_head (theme : String) (s : Page) :
    (applyMarker theme s).head = s.head := by
  unfold applyMarker
  split_ifs <;> rfl

theorem applyMarker_bodyElements (theme : String) (s : Page) :
    (applyMarker theme s).bodyElements = s.bodyElements := by
  unfold applyMarker
  split_ifs <;> rfl

theorem applyTheme_head (theme : String) (s : Page) :
    (applyTheme theme s).head = (applyLink theme s).head := by
  unfold applyTheme applyLink
  dsimp only
  rw [applyMarker_head, applyMarker_bodyElements]
  split <;> [rfl; (split <;> rfl)]

theorem applyTheme_bodyElements (theme : String) (s : Page) :
    (applyTheme theme s).bodyElements = (applyLink theme s).bodyElements := by
  unfold applyTheme applyLink
  dsimp only
  rw [applyMarker_head, applyMarker_bodyElements]
  split <;> [rfl; (split <;> rfl)]

theorem applyTheme_frame (theme : String) (s : Page) :
    (applyTheme theme s).csrfMeta = s.csrfMeta ∧
      (applyTheme theme s).fetchCalls = s.fetchCalls ∧
      (applyTheme theme s).console = s.console := by
  unfold applyTheme applyLink applyMarker
  split_ifs <;> (dsimp only; split <;> [simp; (split <;> simp)])

/-- The three ways `applyTheme` can treat the stylesheet link. -/
theorem applyLink_cases (theme : String) (s : Page) :
    (∃ e, findById "theme-css" s.head = some e ∧
        (applyLink theme s).head = setHrefById "theme-css" (themeCssPath theme) s.head ∧
        (applyLink theme s).bodyElements = s.bodyElements) ∨
    (∃ e, findById "theme-css" s.head = none ∧ findById "theme-css" s.bodyElements = some e ∧
        (applyLink theme s).head = s.head ∧
        (applyLink theme s).bodyElements =
          setHrefById "theme-css" (themeCssPath theme) s.bodyElements) ∨
    (findById "theme-css" s.head = none ∧ findById "theme-css" s.bodyElements = none ∧
        (applyLink theme s).head = s.head ++ [newThemeLink theme] ∧
        (applyLink theme s).bodyElements = s.bodyElements) := by
  unfold applyLink
  cases h1 : findById "theme-css" s.head with
  | some e => exact Or.inl ⟨e, rfl, rfl, rfl⟩
  | none =>
    cases h2 : findById "theme-css" s.bodyElements with
    | some e => exact Or.inr (Or.inl ⟨e, rfl, rfl, rfl, rfl⟩)
    | none => exact Or.inr (Or.inr ⟨rfl, rfl, rfl, rfl⟩)

theorem applyLink_congr (theme : String) (s p : Page) (hh : s.head = p.head)
    (hb : s.bodyElements = p.bodyElements) :
    (applyLink theme s).head = (applyLink theme p).head ∧
      (applyLink theme s).bodyElements = (applyLink theme p).bodyElements := by
  unfold applyLink
  rw [hh, hb]
  cases findById "theme-css" p.head with
  | some e => exact ⟨by simp, by simp [hb]⟩
  | none =>
    cases findById "theme-css" p.bodyElements with
    | some e => exact ⟨by simp [hh], by simp⟩
    | none => exact ⟨by simp, by simp [hb]⟩

theorem themeLinkHref_of_lists (theme : String) (s p : Page)
    (hh : p.head = (applyLink theme s).head)
    (hb : p.bodyElements = (applyLink theme s).bodyElements) :
    themeLinkHref p = some (themeCssPath theme) := by
  unfold themeLinkHref getElementById
  rw [hh, hb]
  rcases applyLink_cases theme s with ⟨e, h1, h2, h3⟩ | ⟨e, h1, h2, h3, h4⟩ | ⟨h1, h2, h3, h4⟩
  · rw [h2, h3, findById_setHrefById, h1]
    simp
  · rw [h3, h4, findById_setHrefById, h1, h2]
    simp
  · rw [h3, h4, findById_append, h1]
    simp [findById, newThemeLink]

theorem themeLinkHref_applyTheme (theme : String) (s : Page) :
    themeLinkHref (applyTheme theme s) = some (themeCssPath theme) :=
  themeLinkHref_of_lists theme s _ (applyTheme_head theme s) (applyTheme_bodyElements theme s)

theorem storedTheme_applyTheme (theme : String) (s : Page) :
    storedTheme (applyTheme theme s) = some theme := by
  unfold storedTheme
  rw [applyTheme_localStorage, getItem_setItem]

theorem applyLink_of_head (theme : String) (s : Page) (e : Element)
    (h : findById "theme-css" s.head = some e) :
    (applyLink theme s).head = setHrefById "theme-css" (themeCssPath theme) s.head ∧
      (applyLink theme s).bodyElements = s.bodyElements := by
  unfold applyLink
  rw [h]
  exact ⟨rfl, rfl⟩

theorem applyLink_of_body (theme : String) (s : Page) (e : Element)
    (h1 : findById "theme-css" s.head = none)
    (h2 : findById "theme-css" s.bodyElements = some e) :
    (applyLink theme s).head = s.head ∧
      (applyLink theme s).bodyElements =
        setHrefById "theme-css" (themeCssPath theme) s.bodyElements := by
  unfold applyLink
  rw [h1, h2]
  exact ⟨rfl, rfl⟩

theorem applyLink_of_none (theme : String) (s : Page)
    (h1 : findById "theme-css" s.head = none)
    (h2 : findById "theme-css" s.bodyElements = none) :
    (applyLink theme s).head = s.head ++ [newThemeLink theme] ∧
      (applyLink theme s).bodyElements = s.bodyElements := by
  unfold applyLink
  rw [h1, h2]
  exact ⟨rfl, rfl⟩

theorem setHrefById_append_of_none (id href : String) (l m : List Element)
    (h : findById id l = none) :
    setHrefById id href (l ++ m) = l ++ setHrefById id href m := by
  induction l with
  | nil => rfl
  | cons a rest ih =>
    by_cases ha : a.id = id
    · simp [findById, ha] at h
    · simp [findById, ha] at h
      simp [setHrefById, ha, ih h]

/-- Applying a link twice: the second call reuses the element and only the last
`href` remains. -/
theorem applyLink_applyLink (a b : String) (s : Page) :
    (applyLink a (applyLink b s)).head = (applyLink a s).head ∧
      (applyLink a (applyLink b s)).bodyElements = (applyLink a s).bodyElements := by
  cases h1 : findById "theme-css" s.head with
  | some e =>
    obtain ⟨b1, b2⟩ := applyLink_of_head b s e h1
    obtain ⟨a1, a2⟩ := applyLink_of_head a s e h1
    have hf : findById "theme-css" (applyLink b s).head =
        some { e with href := themeCssPath b } := by
      rw [b1, findById_setHrefById, h1]; rfl
    obtain ⟨c1, c2⟩ := applyLink_of_head a (applyLink b s) _ hf
    rw [c1, c2, a1, a2, b1, b2, setHrefById_setHrefById]
    exact ⟨rfl, rfl⟩
  | none =>
    cases h2 : findById "theme-css" s.bodyElements with
    | some e =>
      obtain ⟨b1, b2⟩ := applyLink_of_body b s e h1 h2
      obtain ⟨a1, a2⟩ := applyLink_of_body a s e h1 h2
      have hf1 : findById "theme-css" (applyLink b s).head = none := by rw [b1, h1]
      have hf2 : findById "theme-css" (applyLink b s).bodyElements =
          some { e with href := themeCssPath b } := by
        rw [b2, findById_setHrefById, h2]; rfl
      obtain ⟨c1, c2⟩ := applyLink_of_body a (applyLink b s) _ hf1 hf2
      rw [c1, c2, a1, a2, b1, b2, setHrefById_setHrefById]
      exact ⟨rfl, rfl⟩
    | none =>
      obtain ⟨b1, b2⟩ := applyLink_of_none b s h1 h2
      obtain ⟨a1, a2⟩ := applyLink_of_none a s h1 h2
      have hf : findById "theme-css" (applyLink b s).head = some (newThemeLink b) := by
        rw [b1, findById_append, h1]
        simp [findById, newThemeLink]
      obtain ⟨c1, c2⟩ := applyLink_of_head a (applyLink b s) _ hf
      rw [c1, c2, a1, a2, b1, b2, setHrefById_append_of_none _ _ _ _ h1]
      exact ⟨by simp [setHrefById, newThemeLink], rfl⟩

/-- The lists of elements after two calls of `applyTheme` are those after the
last call alone. -/
theorem applyTheme_applyTheme_lists (a b : String) (s : Page) :
    (applyTheme a (applyTheme b s)).head = (applyTheme a s).head ∧
      (applyTheme a (applyTheme b s)).bodyElements = (applyTheme a s).bodyElements := by
  rw [applyTheme_head, applyTheme_bodyElements, applyTheme_head a s,
    applyTheme_bodyElements a s]
  obtain ⟨h1, h2⟩ := applyLink_congr a (applyTheme b s) (applyLink b s)
    (applyTheme_head b s) (applyTheme_bodyElements b s)
  obtain ⟨h3, h4⟩ := applyLink_applyLink a b s
  exact ⟨h1.trans h3, h2.trans h4⟩

theorem applyTheme_applyTheme_localStorage (a b : String) (s : Page) :
    (applyTheme a (applyTheme b s)).localStorage = (applyTheme a s).localStorage := by
  rw [applyTheme_localStorage, applyTheme_localStorage, applyTheme_localStorage,
    setItem_setItem]

theorem applyMarker_themeToggle (theme : String) (s : Page) :
    (applyMarker theme s).themeToggle =
      s.themeToggle.map fun _ =>
        if theme = "dark" then
          ({ innerHTML := sunIcon, title := some "Switch to Light Mode" } : Toggle)
        else { innerHTML := moonIcon, title := some "Switch to Dark Mode" } := by
  unfold applyMarker
  split_ifs <;> rfl

theorem applyTheme_applyTheme_themeToggle (a b : String) (s : Page) :
    (applyTheme a (applyTheme b s)).themeToggle = (applyTheme a s).themeToggle := by
  rw [applyTheme_themeToggle, applyMarker_themeToggle, applyTheme_themeToggle,
    applyMarker_themeToggle, applyTheme_themeToggle, applyMarker_themeToggle]
  cases s.themeToggle <;> rfl

theorem mem_applyTheme_bodyClassList (theme c : String) (s : Page) :
    c ∈ (applyTheme theme s).bodyClassList ↔
      if theme = "dark" then (c ∈ s.bodyClassList ∨ c = "dark-theme") ∧ c ≠ "light-theme"
      else (c ∈ s.bodyClassList ∨ c = "light-theme") ∧ c ≠ "dark-theme" := by
  rw [applyTheme_bodyClassList]
  unfold applyMarker
  split_ifs <;> simp [mem_classListRemove, mem_classListAdd]

theorem hasMarker_applyTheme (theme : String) (s : Page) :
    HasMarker theme (applyTheme theme s) := by
  unfold HasMarker
  split_ifs with h
  · rw [mem_applyTheme_bodyClassList, mem_applyTheme_bodyClassList]
    simp [h]
  · rw [mem_applyTheme_bodyClassList, mem_applyTheme_bodyClassList]
    simp [h]

theorem applyTheme_applyTheme_classes (a b c : String) (s : Page) :
    c ∈ (applyTheme a (applyTheme b s)).bodyClassList ↔ c ∈ (applyTheme a s).bodyClassList := by
  rw [mem_applyTheme_bodyClassList, mem_applyTheme_bodyClassList a,
    mem_applyTheme_bodyClassList b]
  by_cases ha : a = "dark" <;> by_cases hb : b = "dark" <;> simp only [ha, hb, if_true, if_false]
    <;> constructor <;> rintro ⟨h1, h2⟩ <;> refine ⟨?_, h2⟩ <;> tauto

/-- A second call of `applyTheme` with the same theme changes nothing at all. -/
theorem applyTheme_same (theme : String) (s : Page) :
    applyTheme theme (applyTheme theme s) = applyTheme theme s := by
  have hl := applyTheme_applyTheme_localStorage theme theme s
  obtain ⟨hh, hb⟩ := applyTheme_applyTheme_lists theme theme s
  have ht := applyTheme_applyTheme_themeToggle theme theme s
  obtain ⟨f1, f2, f3⟩ := applyTheme_frame theme (applyTheme theme s)
  have hc : (applyTheme theme (applyTheme theme s)).bodyClassList =
      (applyTheme theme s).bodyClassList := by
    have hm := hasMarker_applyTheme theme s
    rw [applyTheme_bodyClassList theme (applyTheme theme s)]
    unfold HasMarker at hm
    unfold applyMarker
    split_ifs at hm ⊢ with h
    · show classListRemove (classListAdd _ _) _ = _
      rw [classListAdd_of_mem _ _ hm.1, classListRemove_of_not_mem _ _ hm.2]
    · show classListRemove (classListAdd _ _) _ = _
      rw [classListAdd_of_mem _ _ hm.1, classListRemove_of_not_mem _ _ hm.2]
  cases hp : applyTheme theme (applyTheme theme s)
  cases hq : applyTheme theme s
  rw [hp, hq] at hl hh hb ht hc
  rw [hp] at f1 f2 f3
  rw [hq] at f1 f2 f3
  simp only at hl hh hb ht hc f1 f2 f3
  simp only [Page.mk.injEq]
  exact ⟨hl, hc, ht, hh, hb, f1, f2, f3⟩

/-! ## Lemmas on the click handler and on the local state -/

theorem localState_eq_iff (p q : Page) :
    localState p = localState q ↔
      p.localStorage = q.localStorage ∧ p.bodyClassList = q.bodyClassList ∧
        p.themeToggle = q.themeToggle ∧ p.head = q.head ∧ p.bodyElements = q.bodyElements := by
  simp [localState]

theorem applyTheme_localState_congr (theme : String) (p q : Page)
    (h : localState p = localState q) :
    localState (applyTheme theme p) = localState (applyTheme theme q) := by
  rw [localState_eq_iff] at h ⊢
  obtain ⟨h1, h2, h3, h4, h5⟩ := h
  obtain ⟨l1, l2⟩ := applyLink_congr theme p q h4 h5
  refine ⟨?_, ?_, ?_, ?_, ?_⟩
  · rw [applyTheme_localStorage, applyTheme_localStorage, h1]
  · rw [applyTheme_bodyClassList, applyTheme_bodyClassList]
    unfold applyMarker
    split_ifs
    · show classListRemove (classListAdd p.bodyClassList _) _ = classListRemove (classListAdd q.bodyClassList _) _
      rw [h2]
    · show classListRemove (classListAdd p.bodyClassList _) _ = classListRemove (classListAdd q.bodyClassList _) _
      rw [h2]
  · rw [applyTheme_themeToggle, applyTheme_themeToggle, applyMarker_themeToggle,
      applyMarker_themeToggle, h3]
  · rw [applyTheme_head, applyTheme_head, l1]
  · rw [applyTheme_bodyElements, applyTheme_bodyElements, l2]

theorem localState_themeToggleClick (s : Page) :
    localState (themeToggleClick s) = localState (applyTheme (newTheme s) s) := rfl

theorem newTheme_congr (p q : Page) (h : p.localStorage = q.localStorage) :
    newTheme p = newTheme q := by
  unfold newTheme
  rw [h]

theorem newTheme_eq (s : Page) : newTheme s = "dark" ∨ newTheme s = "light" := by
  unfold newTheme
  dsimp only
  split_ifs
  · exact Or.inl rfl
  · exact Or.inr rfl

theorem newTheme_of_stored (s : Page) (theme : String) (h : storedTheme s = some theme)
    (ht : theme = "dark" ∨ theme = "light") :
    newTheme s = if theme = "light" then "dark" else "light" := by
  unfold storedTheme at h
  unfold newTheme
  rw [h]
  rcases ht with rfl | rfl <;> decide

theorem newTheme_dark_of (s : Page)
    (h : storedTheme s = none ∨ storedTheme s = some "" ∨ storedTheme s = some "light") :
    newTheme s = "dark" := by
  unfold storedTheme at h
  unfold newTheme
  rcases h with h | h | h <;> rw [h] <;> decide

theorem newTheme_light_of (s : Page) (v : String) (h : storedTheme s = some v)
    (h1 : v ≠ "") (h2 : v ≠ "light") : newTheme s = "light" := by
  unfold storedTheme at h
  unfold newTheme
  rw [h]
  have e : orDefault (some v) "light" = v := by
    unfold orDefault
    dsimp only
    rw [if_neg h1]
  dsimp only
  rw [e, if_neg h2]

theorem storedTheme_themeToggleClick (s : Page) :
    storedTheme (themeToggleClick s) = some (newTheme s) := by
  have h := (localState_eq_iff _ _).1 (localState_themeToggleClick s)
  unfold storedTheme
  rw [h.1]
  exact storedTheme_applyTheme _ s

theorem themeLinkHref_congr (p q : Page) (h : localState p = localState q) :
    themeLinkHref p = themeLinkHref q := by
  rw [localState_eq_iff] at h
  unfold themeLinkHref getElementById
  rw [h.2.2.2.1, h.2.2.2.2]

theorem hasMarker_congr (theme : String) (p q : Page) (h : localState p = localState q) :
    HasMarker theme p ↔ HasMarker theme q := by
  rw [localState_eq_iff] at h
  unfold HasMarker
  rw [h.2.1]

theorem themeLinkHref_themeToggleClick (s : Page) :
    themeLinkHref (themeToggleClick s) = some (themeCssPath (newTheme s)) := by
  rw [themeLinkHref_congr _ _ (localState_themeToggleClick s)]
  exact themeLinkHref_applyTheme _ s

theorem hasMarker_themeToggleClick (s : Page) :
    HasMarker (newTheme s) (themeToggleClick s) := by
  rw [hasMarker_congr _ _ _ (localState_themeToggleClick s)]
  exact hasMarker_applyTheme _ s

theorem newTheme_themeToggleClick (s : Page) :
    newTheme (themeToggleClick s) = if newTheme s = "light" then "dark" else "light" :=
  newTheme_of_stored _ _ (storedTheme_themeToggleClick s) (newTheme_eq s)

theorem sameTheme_of_localState (p q : Page) (h : localState p = localState q) :
    SameTheme p q := by
  rw [localState_eq_iff] at h
  obtain ⟨h1, h2, h3, h4, h5⟩ := h
  refine ⟨h1, h4, h5, h3, ?_, ?_⟩
  · rw [h2]; exact fun _ hx => hx
  · rw [h2]; exact fun _ hx => hx

theorem sameTheme_trans (p q r : Page) (h1 : SameTheme p q) (h2 : SameTheme q r) :
    SameTheme p r := by
  obtain ⟨a1, a2, a3, a4, a5, a6⟩ := h1
  obtain ⟨b1, b2, b3, b4, b5, b6⟩ := h2
  exact ⟨a1.trans b1, a2.trans b2, a3.trans b3, a4.trans b4,
    fun _ hx => b5 (a5 hx), fun _ hx => a6 (b6 hx)⟩

/-- Two calls of `applyTheme` leave what the last one alone leaves, the body
classes taken as a set. -/
theorem sameTheme_applyTheme_applyTheme (a b : String) (s : Page) :
    SameTheme (applyTheme a (applyTheme b s)) (applyTheme a s) := by
  obtain ⟨hh, hb⟩ := applyTheme_applyTheme_lists a b s
  exact ⟨applyTheme_applyTheme_localStorage a b s, hh, hb,
    applyTheme_applyTheme_themeToggle a b s,
    fun c hc => (applyTheme_applyTheme_classes a b c s).1 hc,
    fun c hc => (applyTheme_applyTheme_classes a b c s).2 hc⟩

/-- Two clicks on a page that a click produced restore its local theme state. -/
theorem sameTheme_click_click (s : Page) :
    SameTheme (themeToggleClick (themeToggleClick (themeToggleClick s))) (themeToggleClick s) := by
  have e1 : localState (themeToggleClick s) = localState (applyTheme (newTheme s) s) :=
    localState_themeToggleClick s
  have e2 : localState (themeToggleClick (themeToggleClick s)) =
      localState (applyTheme (newTheme (themeToggleClick s)) (applyTheme (newTheme s) s)) :=
    (localState_themeToggleClick _).trans (applyTheme_localState_congr _ _ _ e1)
  have hn : newTheme (themeToggleClick (themeToggleClick s)) = newTheme s := by
    rw [newTheme_themeToggleClick, newTheme_themeToggleClick]
    rcases newTheme_eq s with h | h <;> rw [h] <;> decide
  have e3 : localState (themeToggleClick (themeToggleClick (themeToggleClick s))) =
      localState (applyTheme (newTheme s)
        (applyTheme (newTheme (themeToggleClick s)) (applyTheme (newTheme s) s))) := by
    have := (localState_themeToggleClick (themeToggleClick (themeToggleClick s))).trans
      (applyTheme_localState_congr (newTheme (themeToggleClick (themeToggleClick s))) _ _ e2)
    rw [hn] at this
    exact this
  refine sameTheme_trans _ _ _ (sameTheme_of_localState _ _ e3) ?_
  refine sameTheme_trans _ _ _ (sameTheme_applyTheme_applyTheme _ _ _) ?_
  rw [applyTheme_same]
  exact sameTheme_of_localState _ _ e1.symm

theorem localState_settle (o : Outcome) (s : Page) : localState (settle o s) = localState s := by
  cases o <;> rfl

theorem step_localState_congr (e : Event) (p q : Page) (h : localState p = localState q) :
    localState (step p e) = localState (step q e) := by
  cases e with
  | settled o =>
    show localState (settle o p) = localState (settle o q)
    rw [localState_settle, localState_settle, h]
  | click =>
    have hf := (localState_eq_iff _ _).1 h
    unfold step
    dsimp only
    rw [hf.2.2.1]
    cases q.themeToggle with
    | none => exact h
    | some t =>
      show localState (themeToggleClick p) = localState (themeToggleClick q)
      rw [localState_themeToggleClick, localState_themeToggleClick,
        newTheme_congr p q hf.1]
      exact applyTheme_localState_congr _ _ _ h

theorem run_localState (events : List Event) (p q : Page) (h : localState p = localState q) :
    localState (run events p) =
      localState (run (events.filter fun e => decide (e = Event.click)) q) := by
  induction events generalizing p q with
  | nil => exact h
  | cons e rest ih =>
    cases e with
    | click =>
      have : run (List.filter (fun e => decide (e = Event.click)) (Event.click :: rest)) q =
          run (List.filter (fun e => decide (e = Event.click)) rest) (step q Event.click) := by
        simp [run, List.filter_cons]
      rw [this]
      exact ih _ _ (step_localState_congr _ _ _ h)
    | settled o =>
      have : run (List.filter (fun e => decide (e = Event.click)) (Event.settled o :: rest)) q =
          run (List.filter (fun e => decide (e = Event.click)) rest) q := by
        simp [run, List.filter_cons]
      rw [this]
      refine ih (step p (Event.settled o)) q ?_
      show localState (settle o p) = localState q
      rw [localState_settle, h]

theorem storedTheme_of_sameTheme (p q : Page) (h : SameTheme p q) :
    storedTheme p = storedTheme q := by
  unfold storedTheme
  rw [h.1]

theorem themeLinkHref_of_sameTheme (p q : Page) (h : SameTheme p q) :
    themeLinkHref p = themeLinkHref q := by
  unfold themeLinkHref getElementById
  rw [h.2.1, h.2.2.1]

theorem hasMarker_of_sameTheme (theme : String) (p q : Page) (h : SameTheme p q) :
    HasMarker theme p ↔ HasMarker theme q := by
  obtain ⟨_, _, _, _, h5, h6⟩ := h
  have hm : ∀ c, c ∈ p.bodyClassList ↔ c ∈ q.bodyClassList := fun c => ⟨fun hc => h5 hc, fun hc => h6 hc⟩
  unfold HasMarker
  rw [hm, hm]

theorem findById_none_of_count (s : Page) (h : countById "theme-css" s = 0) :
    findById "theme-css" s.head = none ∧ findById "theme-css" s.bodyElements = none := by
  unfold countById at h
  rw [List.countP_append] at h
  exact ⟨(findById_eq_none_iff _ _).2 (by omega), (findById_eq_none_iff _ _).2 (by omega)⟩

/-- Once the link has been appended to the head, every further call keeps it
there and assigns only its `href`. -/
theorem applyTheme_keeps_link (s p : Page) (t theme : String)
    (h1 : findById "theme-css" s.head = none)
    (hh : p.head = s.head ++ [newThemeLink t]) (hb : p.bodyElements = s.bodyElements) :
    (applyTheme theme p).head = setHrefById "theme-css" (themeCssPath theme) p.head ∧
      (applyTheme theme p).head = s.head ++ [newThemeLink theme] ∧
      (applyTheme theme p).bodyElements = s.bodyElements := by
  have hf : findById "theme-css" p.head = some (newThemeLink t) := by
    rw [hh, findById_append, h1]
    simp [findById, newThemeLink]
  obtain ⟨c1, c2⟩ := applyLink_of_head theme p _ hf
  rw [applyTheme_head, applyTheme_bodyElements, c1, c2, hb]
  refine ⟨rfl, ?_, rfl⟩
  rw [hh, setHrefById_append_of_none _ _ _ _ h1]
  simp [setHrefById, newThemeLink]

theorem applyThemes_keeps_link (s : Page) (later : List String) (p : Page) (t : String)
    (h1 : findById "theme-css" s.head = none)
    (hh : p.head = s.head ++ [newThemeLink t]) (hb : p.bodyElements = s.bodyElements) :
    ∃ u, (applyThemes later p).head = s.head ++ [newThemeLink u] ∧
      (applyThemes later p).bodyElements = s.bodyElements := by
  induction later generalizing p t with
  | nil => exact ⟨t, hh, hb⟩
  | cons theme rest ih =>
    obtain ⟨_, k1, k2⟩ := applyTheme_keeps_link s p t theme h1 hh hb
    exact ih (applyTheme theme p) theme k1 k2

theorem applyThemes_append (xs ys : List String) (s : Page) :
    applyThemes (xs ++ ys) s = applyThemes ys (applyThemes xs s) := by
  simp [applyThemes, List.foldl_append]

/-! ## The claims -/

/-- C1: the click handler takes the new theme from the stored value alone.
When the value is absent, empty or `light` the click applies `dark`; for every
other stored string it applies `light`. Two pages with the same stored value,
whatever their body classes, have after the click the same body marker, the same
stylesheet `href` and the same stored value, all naming that theme. -/
theorem click_follows_stored_value (s p : Page) (h : storedTheme p = storedTheme s) :
    (storedTheme s = none ∨ storedTheme s = some "" ∨ storedTheme s = some "light" →
        localState (themeToggleClick s) = localState (applyTheme "dark" s) ∧
        HasMarker "dark" (themeToggleClick s) ∧
        themeLinkHref (themeToggleClick s) = some "/static/css/dark.css" ∧
        storedTheme (themeToggleClick s) = some "dark" ∧
        HasMarker "dark" (themeToggleClick p) ∧
        themeLinkHref (themeToggleClick p) = some "/static/css/dark.css" ∧
        storedTheme (themeToggleClick p) = some "dark") ∧
      (∀ v, storedTheme s = some v → v ≠ "" → v ≠ "light" →
        localState (themeToggleClick s) = localState (applyTheme "light" s) ∧
        HasMarker "light" (themeToggleClick s) ∧
        themeLinkHref (themeToggleClick s) = some "/static/css/light.css" ∧
        storedTheme (themeToggleClick s) = some "light" ∧
        HasMarker "light" (themeToggleClick p) ∧
        themeLinkHref (themeToggleClick p) = some "/static/css/light.css" ∧
        storedTheme (themeToggleClick p) = some "light") ∧
      themeLinkHref (themeToggleClick p) = themeLinkHref (themeToggleClick s) ∧
      storedTheme (themeToggleClick p) = storedTheme (themeToggleClick s) ∧
      ("dark-theme" ∈ (themeToggleClick p).bodyClassList ↔
        "dark-theme" ∈ (themeToggleClick s).bodyClassList) ∧
      ("light-theme" ∈ (themeToggleClick p).bodyClassList ↔
        "light-theme" ∈ (themeToggleClick s).bodyClassList) := by
  have hn : newTheme p = newTheme s := by
    unfold storedTheme at h
    unfold newTheme
    rw [h]
  have all : ∀ t, newTheme s = t →
      localState (themeToggleClick s) = localState (applyTheme t s) ∧
      HasMarker t (themeToggleClick s) ∧
      themeLinkHref (themeToggleClick s) = some (themeCssPath t) ∧
      storedTheme (themeToggleClick s) = some t ∧
      HasMarker t (themeToggleClick p) ∧
      themeLinkHref (themeToggleClick p) = some (themeCssPath t) ∧
      storedTheme (themeToggleClick p) = some t := by
    intro t ht
    have hp : newTheme p = t := hn.trans ht
    refine ⟨?_, ?_, ?_, ?_, ?_, ?_, ?_⟩
    · rw [← ht]; exact localState_themeToggleClick s
    · rw [← ht]; exact hasMarker_themeToggleClick s
    · rw [← ht]; exact themeLinkHref_themeToggleClick s
    · rw [← ht]; exact storedTheme_themeToggleClick s
    · rw [← hp]; exact hasMarker_themeToggleClick p
    · rw [← hp]; exact themeLinkHref_themeToggleClick p
    · rw [← hp]; exact storedTheme_themeToggleClick p
  have ms := hasMarker_themeToggleClick s
  have mp := hasMarker_themeToggleClick p
  rw [hn] at mp
  unfold HasMarker at ms mp
  refine ⟨fun hd => all "dark" (newTheme_dark_of s hd),
    fun v hv h1 h2 => all "light" (newTheme_light_of s v hv h1 h2), ?_, ?_, ?_, ?_⟩
  · rw [themeLinkHref_themeToggleClick, themeLinkHref_themeToggleClick, hn]
  · rw [storedTheme_themeToggleClick, storedTheme_themeToggleClick, hn]
  · split_ifs at ms mp
    · exact ⟨fun _ => ms.1, fun _ => mp.1⟩
    · exact ⟨fun hx => absurd hx mp.2, fun hx => absurd hx ms.2⟩
  · split_ifs at ms mp
    · exact ⟨fun hx => absurd hx mp.2, fun hx => absurd hx ms.2⟩
    · exact ⟨fun _ => ms.1, fun _ => mp.1⟩

/-- Witness of C1: with nothing stored, a page rendered dark and a page rendered
light both store `dark` after a click and end with the same stylesheet `href`;
with `dark` stored, a page rendered light stores `light` after a click. -/
theorem click_follows_stored_value_witness :
    storedTheme unstoredDarkPage = none ∧
      storedTheme unstoredDarkPage = storedTheme unstoredLightPage ∧
      unstoredDarkPage.bodyClassList ≠ unstoredLightPage.bodyClassList ∧
      storedTheme (themeToggleClick unstoredLightPage) = some "dark" ∧
      storedTheme (themeToggleClick unstoredDarkPage) = some "dark" ∧
      themeLinkHref (themeToggleClick unstoredDarkPage) =
        themeLinkHref (themeToggleClick unstoredLightPage) ∧
      storedTheme (themeToggleClick stalePage) = some "light" :=
  ⟨by decide, by decide, by decide,
    ((click_follows_stored_value unstoredLightPage unstoredDarkPage (by decide)).1
      (Or.inl (by decide))).2.2.2.1,
    ((click_follows_stored_value unstoredLightPage unstoredDarkPage (by decide)).1
      (Or.inl (by decide))).2.2.2.2.2.2,
    (click_follows_stored_value unstoredLightPage unstoredDarkPage (by decide)).2.2.1,
    ((click_follows_stored_value darkPage stalePage (by decide)).2.1 "dark"
      (by decide) (by decide) (by decide)).2.2.2.2.2.2⟩

/-- C2: after `applyTheme(theme)` the body carries exactly one of the classes
`dark-theme` and `light-theme`, `dark-theme` iff the theme is `dark`; after any
sequence of calls it has the marker of the last call and not the other; and
`applyTheme('dark')` then `applyTheme('light')` leaves `light-theme` present and
`dark-theme` absent. -/
theorem applyTheme_marker_exclusive (s : Page) (theme : String) (themes : List String) :
    ("dark-theme" ∈ (applyTheme theme s).bodyClassList ↔ theme = "dark") ∧
      ("light-theme" ∈ (applyTheme theme s).bodyClassList ↔ theme ≠ "dark") ∧
      HasMarker theme (applyThemes (themes ++ [theme]) s) ∧
      "light-theme" ∈ (applyTheme "light" (applyTheme "dark" s)).bodyClassList ∧
      "dark-theme" ∉ (applyTheme "light" (applyTheme "dark" s)).bodyClassList := by
  refine ⟨?_, ?_, ?_, ?_, ?_⟩
  · rw [mem_applyTheme_bodyClassList]
    by_cases h : theme = "dark" <;> simp [h]
  · rw [mem_applyTheme_bodyClassList]
    by_cases h : theme = "dark" <;> simp [h]
  · rw [applyThemes_append]
    exact hasMarker_applyTheme theme _
  · exact (hasMarker_applyTheme "light" (applyTheme "dark" s)).1
  · exact (hasMarker_applyTheme "light" (applyTheme "dark" s)).2

/-- C3: for a prior stored value among `light`, `dark` and absent, the
initialisation resolves the theme (absent gives `light`) and leaves the body
marker of the resolved theme, the link `href` `/static/css/<resolved>.css` and
the resolved theme in storage; with no prior entry that is the light marker,
`/static/css/light.css` and stored `light`. -/
theorem domContentLoaded_resolves_stored (s : Page)
    (h : storedTheme s = none ∨ storedTheme s = some "light" ∨ storedTheme s = some "dark") :
    (orDefault (storedTheme s) "light" = "light" ∨ orDefault (storedTheme s) "light" = "dark") ∧
      (∀ v, storedTheme s = some v → orDefault (storedTheme s) "light" = v) ∧
      HasMarker (orDefault (storedTheme s) "light") (domContentLoaded s) ∧
      themeLinkHref (domContentLoaded s) =
        some ("/static/css/" ++ orDefault (storedTheme s) "light" ++ ".css") ∧
      storedTheme (domContentLoaded s) = some (orDefault (storedTheme s) "light") ∧
      (storedTheme s = none →
        "light-theme" ∈ (domContentLoaded s).bodyClassList ∧
        "dark-theme" ∉ (domContentLoaded s).bodyClassList ∧
        themeLinkHref (domContentLoaded s) = some "/static/css/light.css" ∧
        storedTheme (domContentLoaded s) = some "light") := by
  have hd : domContentLoaded s = applyTheme (orDefault (storedTheme s) "light") s := rfl
  rw [hd]
  refine ⟨?_, ?_, hasMarker_applyTheme _ s, themeLinkHref_applyTheme _ s,
    storedTheme_applyTheme _ s, ?_⟩
  · rcases h with h | h | h <;> rw [h] <;> decide
  · intro v hv
    rcases h with h | h | h <;> rw [h] at hv ⊢
    · simp at hv
    · cases hv; decide
    · cases hv; decide
  · intro hn
    rw [hn]
    have e : orDefault none "light" = "light" := rfl
    rw [e]
    exact ⟨(hasMarker_applyTheme "light" s).1, (hasMarker_applyTheme "light" s).2,
      themeLinkHref_applyTheme "light" s, storedTheme_applyTheme "light" s⟩

/-- Witness of C3: a page with nothing stored ends with stored `light`. -/
theorem domContentLoaded_resolves_stored_witness :
    storedTheme freshPage = none ∧ storedTheme (domContentLoaded freshPage) = some "light" :=
  ⟨by decide, ((domContentLoaded_resolves_stored freshPage (Or.inl (by decide))).2.2.2.2.2
    (by decide)).2.2.2⟩

/-- C4: `applyTheme` is idempotent: a second call with the same theme leaves
the whole page as the first call left it, so storage, the stylesheet link (the
same elements, the same `href`), the body classes and the control are the same. -/
theorem applyTheme_idempotent (s : Page) (theme : String) :
    applyTheme theme (applyTheme theme s) = applyTheme theme s ∧
      countById "theme-css" (applyTheme theme (applyTheme theme s)) =
        countById "theme-css" (applyTheme theme s) ∧
      localState (applyTheme theme (applyTheme theme s)) = localState (applyTheme theme s) := by
  rw [applyTheme_same]
  exact ⟨rfl, rfl, rfl⟩

/-- C5: starting from a document with no element of id `theme-css`, the first
call of `applyTheme` appends the link to the head; after any further calls the
head is still the old head followed by that one link, a later call assigns only
its `href`, and the document has exactly one element with id `theme-css`. -/
theorem applyTheme_link_created_once (s : Page) (h : countById "theme-css" s = 0)
    (theme : String) (later : List String) (next : String) :
    (applyTheme theme s).head = s.head ++ [newThemeLink theme] ∧
      (applyTheme theme s).bodyElements = s.bodyElements ∧
      (∃ u, (applyThemes later (applyTheme theme s)).head = s.head ++ [newThemeLink u]) ∧
      (applyThemes later (applyTheme theme s)).bodyElements = s.bodyElements ∧
      countById "theme-css" (applyThemes later (applyTheme theme s)) = 1 ∧
      (applyTheme next (applyThemes later (applyTheme theme s))).head =
        setHrefById "theme-css" (themeCssPath next)
          (applyThemes later (applyTheme theme s)).head ∧
      (applyTheme next (applyThemes later (applyTheme theme s))).head =
        s.head ++ [newThemeLink next] ∧
      (applyTheme next (applyThemes later (applyTheme theme s))).bodyElements =
        s.bodyElements := by
  obtain ⟨h1, h2⟩ := findById_none_of_count s h
  obtain ⟨a1, a2⟩ := applyLink_of_none theme s h1 h2
  have b1 : (applyTheme theme s).head = s.head ++ [newThemeLink theme] := by
    rw [applyTheme_head, a1]
  have b2 : (applyTheme theme s).bodyElements = s.bodyElements := by
    rw [applyTheme_bodyElements, a2]
  obtain ⟨u, c1, c2⟩ := applyThemes_keeps_link s later (applyTheme theme s) theme h1 b1 b2
  obtain ⟨d1, d2, d3⟩ := applyTheme_keeps_link s _ u next h1 c1 c2
  refine ⟨b1, b2, ⟨u, c1⟩, c2, ?_, d1, d2, d3⟩
  unfold countById at h ⊢
  rw [c1, c2, List.append_assoc, List.countP_append, List.countP_append]
  rw [List.countP_append] at h
  have e : List.countP (fun e => decide (e.id = "theme-css")) [newThemeLink u] = 1 := by
    simp [newThemeLink]
  omega

/-- Witness of C5: on a page without a link, three calls leave one link. -/
theorem applyTheme_link_created_once_witness :
    countById "theme-css" freshPage = 0 ∧
      countById "theme-css" (applyThemes ["light", "dark"] (applyTheme "dark" freshPage)) = 1 :=
  ⟨by decide, (applyTheme_link_created_once freshPage (by decide) "dark" ["light", "dark"]
    "light").2.2.2.2.1⟩

/-- C6: with `light` or `dark` stored, one click applies the opposite theme
(body marker, link `href`, stored value) and calls `fetch` exactly once, with
url `/auth/update_theme`, method `POST`, header `Content-Type`
`application/json`, header `X-CSRFToken` the `content` of the `csrf-token` meta
element, and body the JSON text of `{theme: o}`; with `dark` stored the body is
`{"theme":"light"}`. -/
theorem click_applies_opposite_and_posts (s : Page) (stored o : String)
    (h : storedTheme s = some stored)
    (ho : (stored = "light" ∧ o = "dark") ∨ (stored = "dark" ∧ o = "light")) :
    HasMarker o (themeToggleClick s) ∧
      themeLinkHref (themeToggleClick s) = some ("/static/css/" ++ o ++ ".css") ∧
      storedTheme (themeToggleClick s) = some o ∧
      (themeToggleClick s).fetchCalls = s.fetchCalls ++
        [{ url := "/auth/update_theme"
           method := "POST"
           headers := [("Content-Type", JsVal.str "application/json"),
                       ("X-CSRFToken", getCsrfToken s)]
           body := stringifyThemeObject o }] ∧
      stringifyThemeObject o = "\x7b\"theme\":\"" ++ o ++ "\"\x7d" ∧
      (∀ c, s.csrfMeta = some (some c) → getCsrfToken s = JsVal.str c) ∧
      (stored = "dark" → stringifyThemeObject o = "\x7b\"theme\":\"light\"\x7d") := by
  have hn : newTheme s = o := by
    have hs : stored = "dark" ∨ stored = "light" := by
      rcases ho with ⟨h1, _⟩ | ⟨h1, _⟩
      · exact Or.inr h1
      · exact Or.inl h1
    rw [newTheme_of_stored s stored h hs]
    rcases ho with ⟨rfl, rfl⟩ | ⟨rfl, rfl⟩ <;> decide
  have hf : (themeToggleClick s).fetchCalls = (applyTheme (newTheme s) s).fetchCalls ++
      [{ url := "/auth/update_theme"
         method := "POST"
         headers := [("Content-Type", JsVal.str "application/json"),
                     ("X-CSRFToken", getCsrfToken (applyTheme (newTheme s) s))]
         body := stringifyThemeObject (newTheme s) }] := rfl
  have hc : getCsrfToken (applyTheme (newTheme s) s) = getCsrfToken s := by
    unfold getCsrfToken
    rw [(applyTheme_frame (newTheme s) s).1]
  refine ⟨?_, ?_, ?_, ?_, ?_, ?_, ?_⟩
  · rw [← hn]; exact hasMarker_themeToggleClick s
  · rw [← hn]; exact themeLinkHref_themeToggleClick s
  · rw [← hn]; exact storedTheme_themeToggleClick s
  · rw [hf, hc, (applyTheme_frame (newTheme s) s).2.1, hn]
  · rcases ho with ⟨_, rfl⟩ | ⟨_, rfl⟩ <;> decide
  · intro c hcm
    unfold getCsrfToken
    rw [hcm]
  · intro hd
    rcases ho with ⟨rfl, _⟩ | ⟨_, rfl⟩
    · exact absurd hd (by decide)
    · decide

/-- Witness of C6: on the dark page a click posts `{"theme":"light"}`. -/
theorem click_applies_opposite_and_posts_witness :
    storedTheme darkPage = some "dark" ∧
      (themeToggleClick darkPage).fetchCalls =
        [{ url := "/auth/update_theme"
           method := "POST"
           headers := [("Content-Type", JsVal.str "application/json"),
                       ("X-CSRFToken", JsVal.str "tok")]
           body := "\x7b\"theme\":\"light\"\x7d" }] :=
  ⟨by decide, ((click_applies_opposite_and_posts darkPage "dark" "light" (by decide)
    (Or.inr ⟨rfl, rfl⟩)).2.2.2.1).trans (by decide)⟩

/-- C7: the outcome of the remote request never affects the local theme
state. Whatever the outcome (a payload, a network rejection, an unparseable
response), after a click and the completion handlers the storage, body classes,
stylesheet link and control are those produced by `applyTheme(newTheme)`; the
handlers add one line of diagnostic output and no request; and over any sequence
of clicks and completions the local state is that of the clicks alone. -/
theorem remote_outcome_never_changes_theme (s : Page) (o : Outcome) (events : List Event) :
    localState (settle o (themeToggleClick s)) =
        localState (applyTheme
          (if orDefault (storedTheme s) "light" = "light" then "dark" else "light") s) ∧
      localState (settle o (themeToggleClick s)) = localState (themeToggleClick s) ∧
      (settle o (themeToggleClick s)).fetchCalls = (themeToggleClick s).fetchCalls ∧
      (∃ entry, (settle o (themeToggleClick s)).console =
        (themeToggleClick s).console ++ [entry]) ∧
      localState (run events s) =
        localState (run (events.filter fun e => decide (e = Event.click)) s) := by
  refine ⟨?_, localState_settle o _, ?_, ?_, run_localState events s s rfl⟩
  · rw [localState_settle]
    exact localState_themeToggleClick s
  · cases o <;> rfl
  · cases o with
    | fulfilled d => exact ⟨_, rfl⟩
    | networkError e => exact ⟨_, rfl⟩
    | parseError e => exact ⟨_, rfl⟩

/-- C8, as stated, fails: the page load with `blue` stored calls
`applyTheme('blue')`; the control then reads `Switch to Dark Mode`, yet the
next click applies `light`, not `dark`. -/
theorem label_differs_from_next_click :
    domContentLoaded blueControlPage = applyTheme "blue" blueControlPage ∧
      (applyTheme "blue" blueControlPage).themeToggle =
        some { innerHTML := "<i class=\"bi bi-moon-fill\"></i>",
               title := some "Switch to Dark Mode" } ∧
      localState (themeToggleClick (applyTheme "blue" blueControlPage)) =
        localState (applyTheme "light" (applyTheme "blue" blueControlPage)) ∧
      storedTheme (themeToggleClick (applyTheme "blue" blueControlPage)) = some "light" ∧
      ¬ HasMarker "dark" (themeToggleClick (applyTheme "blue" blueControlPage)) ∧
      ¬ (storedTheme (themeToggleClick (applyTheme "blue" blueControlPage)) = some "dark") := by
  decide

/-- C8, amended: when a toggle control exists, after `applyTheme('dark')` it
shows the sun icon with title `Switch to Light Mode` and the next click applies
`light`; after `applyTheme('light')` it shows the moon icon with title
`Switch to Dark Mode` and the next click applies `dark`. For every theme
string, the control shows the sun icon and `Switch to Light Mode` when the theme
is `dark` and the moon icon and `Switch to Dark Mode` otherwise, and the next
click applies `dark` when the theme is `light` or empty and `light` otherwise.
When no control exists, `applyTheme` leaves it absent and still sets the body
marker, the stylesheet link and the stored value. -/
theorem applyTheme_toggle_control (s : Page) (control : Toggle) (theme : String) :
    (applyTheme "dark" { s with themeToggle := some control }).themeToggle =
        some { innerHTML := "<i class=\"bi bi-sun-fill\"></i>",
               title := some "Switch to Light Mode" } ∧
      localState (themeToggleClick (applyTheme "dark" { s with themeToggle := some control })) =
        localState (applyTheme "light"
          (applyTheme "dark" { s with themeToggle := some control })) ∧
      (applyTheme "light" { s with themeToggle := some control }).themeToggle =
        some { innerHTML := "<i class=\"bi bi-moon-fill\"></i>",
               title := some "Switch to Dark Mode" } ∧
      localState (themeToggleClick (applyTheme "light" { s with themeToggle := some control })) =
        localState (applyTheme "dark"
          (applyTheme "light" { s with themeToggle := some control })) ∧
      (applyTheme theme { s with themeToggle := some control }).themeToggle =
        some (if theme = "dark" then
            { innerHTML := "<i class=\"bi bi-sun-fill\"></i>",
              title := some "Switch to Light Mode" }
          else
            { innerHTML := "<i class=\"bi bi-moon-fill\"></i>",
              title := some "Switch to Dark Mode" }) ∧
      localState (themeToggleClick (applyTheme theme { s with themeToggle := some control })) =
        localState (applyTheme (if theme = "light" ∨ theme = "" then "dark" else "light")
          (applyTheme theme { s with themeToggle := some control })) ∧
      (applyTheme theme { s with themeToggle := none }).themeToggle = none ∧
      HasMarker theme (applyTheme theme { s with themeToggle := none }) ∧
      themeLinkHref (applyTheme theme { s with themeToggle := none }) =
        some ("/static/css/" ++ theme ++ ".css") ∧
      storedTheme (applyTheme theme { s with themeToggle := none }) = some theme := by
  have n1 : ∀ p : Page, newTheme (applyTheme "dark" p) = "light" := fun p =>
    newTheme_light_of _ "dark" (storedTheme_applyTheme "dark" p) (by decide) (by decide)
  have n2 : ∀ p : Page, newTheme (applyTheme "light" p) = "dark" := fun p =>
    newTheme_dark_of _ (Or.inr (Or.inr (storedTheme_applyTheme "light" p)))
  have n3 : ∀ p : Page, newTheme (applyTheme theme p) =
      if theme = "light" ∨ theme = "" then "dark" else "light" := by
    intro p
    have hst := storedTheme_applyTheme theme p
    split_ifs with hc
    · rcases hc with hc | hc
      · exact newTheme_dark_of _ (Or.inr (Or.inr (hc ▸ hst)))
      · exact newTheme_dark_of _ (Or.inr (Or.inl (hc ▸ hst)))
    · exact newTheme_light_of _ theme hst (fun e => hc (Or.inr e)) (fun e => hc (Or.inl e))
  refine ⟨?_, ?_, ?_, ?_, ?_, ?_, ?_, hasMarker_applyTheme _ _, themeLinkHref_applyTheme _ _,
    storedTheme_applyTheme _ _⟩
  · rw [applyTheme_themeToggle, applyMarker_themeToggle]
    rfl
  · rw [localState_themeToggleClick, n1]
  · rw [applyTheme_themeToggle, applyMarker_themeToggle]
    rfl
  · rw [localState_themeToggleClick, n2]
  · rw [applyTheme_themeToggle, applyMarker_themeToggle]
    rfl
  · rw [localState_themeToggleClick, n3]
  · rw [applyTheme_themeToggle, applyMarker_themeToggle]
    rfl

/-- C9, as stated, fails: with `blue` stored, the page load leaves the link at
`/static/css/blue.css` and `blue` in storage, not `light`. -/
theorem domContentLoaded_keeps_unknown_value :
    storedTheme bluePage = some "blue" ∧
      themeLinkHref (domContentLoaded bluePage) = some "/static/css/blue.css" ∧
      storedTheme (domContentLoaded bluePage) = some "blue" ∧
      ¬ (HasMarker "light" (domContentLoaded bluePage) ∧
        themeLinkHref (domContentLoaded bluePage) = some "/static/css/light.css" ∧
        storedTheme (domContentLoaded bluePage) = some "light") := by
  decide

/-- C9, amended: for a prior stored value that is absent, empty or a string
outside `dark` and `light`, the page load gives the body the light marker and
not the dark one. When the value is absent or empty the link targets
`/static/css/light.css` and storage holds `light`; when it is another string
`t`, the link targets `/static/css/<t>.css` and storage still holds `t`. -/
theorem domContentLoaded_default_light (s : Page)
    (h : storedTheme s = none ∨ storedTheme s = some "" ∨
      ∃ t, storedTheme s = some t ∧ t ≠ "dark" ∧ t ≠ "light") :
    "light-theme" ∈ (domContentLoaded s).bodyClassList ∧
      "dark-theme" ∉ (domContentLoaded s).bodyClassList ∧
      (storedTheme s = none ∨ storedTheme s = some "" →
        themeLinkHref (domContentLoaded s) = some "/static/css/light.css" ∧
        storedTheme (domContentLoaded s) = some "light") ∧
      (∀ t, storedTheme s = some t → t ≠ "" →
        themeLinkHref (domContentLoaded s) = some ("/static/css/" ++ t ++ ".css") ∧
        storedTheme (domContentLoaded s) = some t) := by
  have hd : domContentLoaded s = applyTheme (orDefault (storedTheme s) "light") s := rfl
  have hnd : orDefault (storedTheme s) "light" ≠ "dark" := by
    rcases h with h | h | ⟨t, h, h1, h2⟩ <;> rw [h]
    · decide
    · decide
    · unfold orDefault
      dsimp only
      split_ifs
      · decide
      · exact h1
  have hm := hasMarker_applyTheme (orDefault (storedTheme s) "light") s
  unfold HasMarker at hm
  rw [if_neg hnd] at hm
  rw [hd]
  refine ⟨hm.1, hm.2, ?_, ?_⟩
  · intro he
    have e : orDefault (storedTheme s) "light" = "light" := by
      rcases he with he | he <;> rw [he] <;> rfl
    rw [e]
    exact ⟨themeLinkHref_applyTheme "light" s, storedTheme_applyTheme "light" s⟩
  · intro t ht hne
    have e : orDefault (storedTheme s) "light" = t := by
      rw [ht]
      unfold orDefault
      dsimp only
      rw [if_neg hne]
    rw [e]
    exact ⟨themeLinkHref_applyTheme t s, storedTheme_applyTheme t s⟩

/-- Witness of amended C9: with `blue` stored the link targets the `blue`
stylesheet after the page load. -/
theorem domContentLoaded_default_light_witness :
    storedTheme bluePage = some "blue" ∧
      "light-theme" ∈ (domContentLoaded bluePage).bodyClassList ∧
      themeLinkHref (domContentLoaded bluePage) = some ("/static/css/" ++ "blue" ++ ".css") :=
  ⟨by decide,
    (domContentLoaded_default_light bluePage
      (Or.inr (Or.inr ⟨"blue", by decide, by decide, by decide⟩))).1,
    ((domContentLoaded_default_light bluePage
      (Or.inr (Or.inr ⟨"blue", by decide, by decide, by decide⟩))).2.2.2 "blue"
        (by decide) (by decide)).1⟩

/-- C10: whatever is stored under `theme` beforehand, after a click the stored
value is `light` or `dark` and the body marker, the link `href` and the stored
value all name that theme; and on any page reached by one or more clicks, two
further clicks restore the storage, the link, the control and the set of body
classes, hence the stored value, the marker and the `href`. -/
theorem click_is_involution_on_reachable (s : Page) (n : Nat) (c : String) :
    (∃ t, (t = "light" ∨ t = "dark") ∧
        storedTheme (themeToggleClick s) = some t ∧
        HasMarker t (themeToggleClick s) ∧
        themeLinkHref (themeToggleClick s) = some ("/static/css/" ++ t ++ ".css")) ∧
      SameTheme (themeToggleClick (themeToggleClick (themeToggleClick^[n + 1] s)))
        (themeToggleClick^[n + 1] s) ∧
      storedTheme (themeToggleClick (themeToggleClick (themeToggleClick^[n + 1] s))) =
        storedTheme (themeToggleClick^[n + 1] s) ∧
      themeLinkHref (themeToggleClick (themeToggleClick (themeToggleClick^[n + 1] s))) =
        themeLinkHref (themeToggleClick^[n + 1] s) ∧
      (c ∈ (themeToggleClick (themeToggleClick (themeToggleClick^[n + 1] s))).bodyClassList ↔
        c ∈ (themeToggleClick^[n + 1] s).bodyClassList) := by
  have hs : SameTheme (themeToggleClick (themeToggleClick (themeToggleClick^[n + 1] s)))
      (themeToggleClick^[n + 1] s) := by
    rw [Function.iterate_succ_apply']
    exact sameTheme_click_click _
  refine ⟨⟨newTheme s, (newTheme_eq s).symm, storedTheme_themeToggleClick s,
    hasMarker_themeToggleClick s, themeLinkHref_themeToggleClick s⟩, hs,
    storedTheme_of_sameTheme _ _ hs, themeLinkHref_of_sameTheme _ _ hs, ?_⟩
  exact ⟨fun hc => hs.2.2.2.2.1 hc, fun hc => hs.2.2.2.2.2 hc⟩

end ThemeSwitcher
